import Mathlib

/-!
A shallow embedding of the `logs` and `database/redis` packages of the
`common` Go module, with proofs about their observable behavior.

Modelling conventions:
- machine integers (`int`, `int64`, `time.Duration`, the level enums)
  become `Nat`/`Int`;
- external collaborators (the logrus entry sink, the sentry sink, the
  redis backend) become explicit event traces or response parameters:
  a log method returns the list of calls it makes, the redis client is
  a function from the built options to a response;
- the variadic/`interface` arguments of a log method together with
  `fmt.Sprintf` rendering (both external to this repository) collapse
  into a single already-rendered `String` argument: the source passes
  the same rendered text to the logrus entry and to `sentry`.
-/

namespace Common

-- Constants of `logrus.Level` (a uint32 enum in the logrus library).

namespace logrus

def PanicLevel : Nat := 0

def FatalLevel : Nat := 1

def ErrorLevel : Nat := 2

def WarnLevel : Nat := 3

def InfoLevel : Nat := 4

def DebugLevel : Nat := 5

def TraceLevel : Nat := 6

end logrus

-- Constants of `gommonLog.Lvl` (a uint8 enum in labstack/gommon/log):
-- DEBUG = iota + 1, then INFO, WARN, ERROR, OFF.

namespace gommonLog

def DEBUG : Nat := 1

def INFO : Nat := 2

def WARN : Nat := 3

def ERROR : Nat := 4

def OFF : Nat := 5

end gommonLog

/-- The state of the underlying `logrus.Logger` that this package touches:
its level, its output writer (named by a string tag) and the
`FullTimestamp` flag of the prefixed text formatter installed at init. -/
structure LogrusLogger where
  Level : Nat
  Out : String
  formatterFullTimestamp : Bool
deriving DecidableEq

/-- `CommonLogger` from logs.go: the underlying logrus logger, the display
prefix and the request id.  The Go field `prefix` is spelled `prefix_`
because `prefix` is a Lean keyword. -/
structure CommonLogger where
  logger : LogrusLogger
  prefix_ : String
  requestID : String
deriving DecidableEq

/-- The package-level mutable state of logs.go: whether `once.Do` has run,
and the stored `instance` pointer (`none` models the nil pointer before
initialization). -/
structure LogsGlobal where
  onceDone : Bool
  inst : Option CommonLogger
deriving DecidableEq

/-- `strings.EqualFold`, modelled by lower-casing both sides character by
character and comparing. -/
def EqualFold (s t : String) : Bool :=
  s.data.map Char.toLower == t.data.map Char.toLower

/-- The logger built inside `once.Do`: `logrus.New()` (level Info, output
stderr) with a prefixed text formatter with `FullTimestamp: true`. -/
def newLogrusLogger : LogrusLogger :=
  { Level := logrus.InfoLevel, Out := "stderr", formatterFullTimestamp := true }

/-- The `CommonLogger` value built inside `once.Do` of `NewCommonLog`:
the fresh logrus logger, the first optional prefix argument if supplied
(Go zero value otherwise), and a zero-valued request id. -/
def mkOnceInstance (prefixArgs : List String) : CommonLogger :=
  { logger := newLogrusLogger, prefix_ := prefixArgs.headD "", requestID := "" }

/-- `NewCommonLog(prefix ...string)` acting on the package state: run the
`once.Do` body if it has not run, then overwrite the stored prefix when a
prefix argument is supplied that is not case-insensitively equal to the
stored one, and return the stored instance.  The `none` branch models the
nil-pointer state that the Go code can never reach once `once.Do` ran. -/
def NewCommonLog (prefixArgs : List String) (g : LogsGlobal) : LogsGlobal × CommonLogger :=
  let g1 := if g.onceDone then g
            else { onceDone := true, inst := some (mkOnceInstance prefixArgs) }
  match g1.inst with
  | some i =>
    let i2 := if !prefixArgs.isEmpty && !EqualFold i.prefix_ (prefixArgs.headD "") then
        { i with prefix_ := prefixArgs.headD "" }
      else i
    ({ g1 with inst := some i2 }, i2)
  | none => (g1, mkOnceInstance prefixArgs)

/-- One call made by a log method to an external sink: either a call on
the decorated logrus entry (`method` is the entry method invoked, `fields`
the decoration, `msg` the rendered message), or `sentry.CaptureMessage`. -/
inductive SinkEvent where
  | logEntry (method : String) (fields : List (String × String)) (msg : String)
  | captureMessage (msg : String)
deriving DecidableEq

/-- `decorateLog`: the fields attached to the entry.  The `source` string
computed by `runtime.Caller` is external input here; `prefix` and
`requestID` are attached only when non-empty. -/
def CommonLogger.decorateLog (q : CommonLogger) (source : String) : List (String × String) :=
  [("source", source)]
    ++ (if q.prefix_ ≠ "" then [("prefix", q.prefix_)] else [])
    ++ (if q.requestID ≠ "" then [("requestID", q.requestID)] else [])

/-- `CommonLogger.sentry`: one `sentry.CaptureMessage(message)` call. -/
def CommonLogger.sentry (_q : CommonLogger) (message : String) : List SinkEvent :=
  [SinkEvent.captureMessage message]

def CommonLogger.Print (q : CommonLogger) (source rendered : String) : List SinkEvent :=
  [SinkEvent.logEntry "Print" (q.decorateLog source) rendered]

def CommonLogger.Printf (q : CommonLogger) (source rendered : String) : List SinkEvent :=
  [SinkEvent.logEntry "Printf" (q.decorateLog source) rendered]

def CommonLogger.Printj (q : CommonLogger) (source rendered : String) : List SinkEvent :=
  [SinkEvent.logEntry "Printf" (q.decorateLog source) rendered]

def CommonLogger.Debug (q : CommonLogger) (source rendered : String) : List SinkEvent :=
  [SinkEvent.logEntry "Debug" (q.decorateLog source) rendered]

def CommonLogger.Debugf (q : CommonLogger) (source rendered : String) : List SinkEvent :=
  [SinkEvent.logEntry "Debugf" (q.decorateLog source) rendered]

def CommonLogger.Debugj (q : CommonLogger) (source rendered : String) : List SinkEvent :=
  [SinkEvent.logEntry "Debugf" (q.decorateLog source) rendered]

def CommonLogger.Info (q : CommonLogger) (source rendered : String) : List SinkEvent :=
  [SinkEvent.logEntry "Info" (q.decorateLog source) rendered]

def CommonLogger.Infof (q : CommonLogger) (source rendered : String) : List SinkEvent :=
  [SinkEvent.logEntry "Infof" (q.decorateLog source) rendered]

def CommonLogger.Infoj (q : CommonLogger) (source rendered : String) : List SinkEvent :=
  [SinkEvent.logEntry "Infof" (q.decorateLog source) rendered]

def CommonLogger.Warn (q : CommonLogger) (source rendered : String) : List SinkEvent :=
  [SinkEvent.logEntry "Warn" (q.decorateLog source) rendered]

def CommonLogger.Warnf (q : CommonLogger) (source rendered : String) : List SinkEvent :=
  [SinkEvent.logEntry "Warnf" (q.decorateLog source) rendered]

def CommonLogger.Warnj (q : CommonLogger) (source rendered : String) : List SinkEvent :=
  [SinkEvent.logEntry "Warnf" (q.decorateLog source) rendered]

def CommonLogger.Error (q : CommonLogger) (source rendered : String) : List SinkEvent :=
  [SinkEvent.logEntry "Error" (q.decorateLog source) rendered] ++ q.sentry rendered

def CommonLogger.Errorf (q : CommonLogger) (source rendered : String) : List SinkEvent :=
  [SinkEvent.logEntry "Errorf" (q.decorateLog source) rendered] ++ q.sentry rendered

def CommonLogger.Errorj (q : CommonLogger) (source rendered : String) : List SinkEvent :=
  [SinkEvent.logEntry "Errorf" (q.decorateLog source) rendered] ++ q.sentry rendered

def CommonLogger.Fatal (q : CommonLogger) (source rendered : String) : List SinkEvent :=
  [SinkEvent.logEntry "Fatal" (q.decorateLog source) rendered] ++ q.sentry rendered

def CommonLogger.Fatalj (q : CommonLogger) (source rendered : String) : List SinkEvent :=
  [SinkEvent.logEntry "Fatalf" (q.decorateLog source) rendered] ++ q.sentry rendered

def CommonLogger.Fatalf (q : CommonLogger) (source rendered : String) : List SinkEvent :=
  [SinkEvent.logEntry "Fatalf" (q.decorateLog source) rendered] ++ q.sentry rendered

def CommonLogger.Panic (q : CommonLogger) (source rendered : String) : List SinkEvent :=
  [SinkEvent.logEntry "Panic" (q.decorateLog source) rendered] ++ q.sentry rendered

def CommonLogger.Panicj (q : CommonLogger) (source rendered : String) : List SinkEvent :=
  [SinkEvent.logEntry "Panicf" (q.decorateLog source) rendered] ++ q.sentry rendered

def CommonLogger.Panicf (q : CommonLogger) (source rendered : String) : List SinkEvent :=
  [SinkEvent.logEntry "Panicf" (q.decorateLog source) rendered] ++ q.sentry rendered

/-- The messages forwarded to `sentry.CaptureMessage` within a trace. -/
def capturedMessages : List SinkEvent → List String
  | [] => []
  | SinkEvent.captureMessage m :: rest => m :: capturedMessages rest
  | SinkEvent.logEntry _ _ _ :: rest => capturedMessages rest

def CommonLogger.Output (q : CommonLogger) : String :=
  q.logger.Out

/-- `SetOutput`: the body is literally `// do nothing`. -/
def CommonLogger.SetOutput (q : CommonLogger) (_w : String) : CommonLogger :=
  q

def CommonLogger.Prefix (q : CommonLogger) : String :=
  q.prefix_

def CommonLogger.SetPrefix (q : CommonLogger) (p : String) : CommonLogger :=
  { q with prefix_ := p }

/-- `toLogrusLevel`: gommon level to logrus level, defaulting to Info. -/
def toLogrusLevel (level : Nat) : Nat :=
  if level = gommonLog.DEBUG then logrus.DebugLevel
  else if level = gommonLog.INFO then logrus.InfoLevel
  else if level = gommonLog.WARN then logrus.WarnLevel
  else if level = gommonLog.ERROR then logrus.ErrorLevel
  else logrus.InfoLevel

/-- `toEchoLevel`: logrus level to gommon level, defaulting to OFF. -/
def toEchoLevel (level : Nat) : Nat :=
  if level = logrus.DebugLevel then gommonLog.DEBUG
  else if level = logrus.InfoLevel then gommonLog.INFO
  else if level = logrus.WarnLevel then gommonLog.WARN
  else if level = logrus.ErrorLevel then gommonLog.ERROR
  else gommonLog.OFF

def CommonLogger.Level (q : CommonLogger) : Nat :=
  toEchoLevel q.logger.Level

def CommonLogger.SetLevel (q : CommonLogger) (v : Nat) : CommonLogger :=
  { q with logger := { q.logger with Level := toLogrusLevel v } }

/-- `SetHeader`: the body is literally `// do nothing`. -/
def CommonLogger.SetHeader (q : CommonLogger) (_h : String) : CommonLogger :=
  q

-- Request-id middleware.

def HeaderXRequestID : String := "X-Request-Id"

/-- `http.Header.Get`: the header value, or "" when the header is absent
(the request's headers are modelled as a partial map). -/
def headerGet (h : String → Option String) (key : String) : String :=
  (h key).getD ""

/-- The sentry scope touched by `ConfigureScope`: its tag map. -/
structure Scope where
  tags : String → Option String

def Scope.SetTag (s : Scope) (key value : String) : Scope :=
  { tags := fun k => if k = key then some value else s.tags k }

/-- What one pass of the middleware-wrapped handler produces: the logger
as mutated before the handler ran, the sentry scope as tagged before the
handler ran, and the wrapped handler's returned error. -/
structure MwOutcome where
  loggerAfter : CommonLogger
  scopeAfter : Scope
  result : Except String Unit

/-- `MiddlewareLoggerRequestID` applied to one request: read the
`X-Request-Id` header, store it in `q.requestID`, set the scope tag
`x-request-id`, then call `next` (which observes the updated logger and
scope) and return its result unchanged. -/
def MiddlewareLoggerRequestID (q : CommonLogger) (scope : Scope)
    (headers : String → Option String)
    (next : CommonLogger → Scope → Except String Unit) : MwOutcome :=
  let requestId := headerGet headers HeaderXRequestID
  let q2 : CommonLogger := { q with requestID := requestId }
  let scope2 := scope.SetTag "x-request-id" requestId
  { loggerAfter := q2, scopeAfter := scope2, result := next q2 scope2 }

-- database/redis/redis.go

namespace time

/-- `time.Second` in nanoseconds (`time.Duration` is an int64 of ns). -/
def Second : Int := 1000000000

end time

/-- The fields of `redisLib.Options` that InitClient sets. -/
structure Options where
  Addr : String
  Password : String
  DB : Int
  PoolSize : Int
  ReadTimeout : Int
deriving DecidableEq

structure RedisConfig where
  Host : String
  Password : String
  DB : Int
  PoolSize : Int
  ReadTimeout : Int
deriving DecidableEq

/-- The `redis` struct: the copied config fields plus the client, `none`
until `InitClient` succeeds.  The created client is identified by the
options it was built from (`redisTraceLib.NewClient(redisOpt)`). -/
structure Redis where
  host : String
  password : String
  db : Int
  poolSize : Int
  readTimeout : Int
  client : Option Options
deriving DecidableEq

def NewRedis (config : RedisConfig) : Redis :=
  { host := config.Host
    password := config.Password
    db := config.DB
    poolSize := config.PoolSize
    readTimeout := config.ReadTimeout
    client := none }

/-- The options value that `InitClient` builds before creating the client:
Addr and Password copied, then the three zero-value-defaulting branches
exactly as in the source. -/
def buildRedisOptions (r : Redis) : Options :=
  let redisOpt : Options :=
    { Addr := r.host, Password := r.password, DB := 0, PoolSize := 0, ReadTimeout := 0 }
  let redisOpt := if r.db ≠ 0 then { redisOpt with DB := r.db }
                  else { redisOpt with DB := 0 }
  let redisOpt := if r.poolSize ≠ 0 then { redisOpt with PoolSize := r.poolSize }
                  else { redisOpt with PoolSize := 64 }
  let redisOpt := if r.readTimeout ≠ 0 then { redisOpt with ReadTimeout := r.readTimeout }
                  else { redisOpt with ReadTimeout := 10 * time.Second }
  redisOpt

/-- `InitClient`, with the external `Ping` on the freshly created client
supplied as a response function on the built options.  On ping error the
struct is returned untouched together with the error; on success the
client is stored and no error is returned. -/
def InitClient (r : Redis) (ping : Options → Except String Unit) : Redis × Option String :=
  let redisOpt := buildRedisOptions r
  let cl := redisOpt
  match ping cl with
  | Except.error e => (r, some e)
  | Except.ok _ => ({ r with client := some cl }, none)

/-- The redis backend visible through an initialized client: the stored
keys, and `failure` set when the backend/connection is failing (every
command then returns that error). -/
structure Backend where
  store : String → Option String
  failure : Option String

/-- `client.Get(key).Result()`: the backend error if failing, the stored
value if present, and the `redis.Nil` error for an absent key. -/
def clientGet (b : Backend) (key : String) : Except String String :=
  match b.failure with
  | some e => Except.error e
  | none =>
    match b.store key with
    | some v => Except.ok v
    | none => Except.error "redis: nil"

/-- `client.Del(key).Result()`: the backend error if failing, otherwise
the number of keys removed (1 if the key existed, 0 if not). -/
def clientDel (b : Backend) (key : String) : Except String Int :=
  match b.failure with
  | some e => Except.error e
  | none => Except.ok (if (b.store key).isSome then 1 else 0)

/-- `GetRedisValue`: the value, or "" on any error. -/
def GetRedisValue (b : Backend) (key : String) : String :=
  match clientGet b key with
  | Except.error _ => ""
  | Except.ok val => val

/-- `DeleteRedisValue`: the removed-key count, or 0 on any error. -/
def DeleteRedisValue (b : Backend) (key : String) : Int :=
  match clientDel b key with
  | Except.error _ => 0
  | Except.ok val => val

-- Concrete sample values used by witnesses and counterexamples.

def sampleLogger : CommonLogger :=
  { logger := newLogrusLogger, prefix_ := "", requestID := "" }

def sampleConfig : RedisConfig :=
  { Host := "localhost:6379", Password := "secret", DB := 0, PoolSize := 0, ReadTimeout := 0 }

def sampleConfigNonzero : RedisConfig :=
  { Host := "cache:6379", Password := "", DB := 3, PoolSize := 32,
    ReadTimeout := 5 * time.Second }

def sampleRedis : Redis := NewRedis sampleConfig

def sampleRedisNonzero : Redis := NewRedis sampleConfigNonzero

def pingFail : Options → Except String Unit := fun _ => Except.error "connection refused"

def pingOk : Options → Except String Unit := fun _ => Except.ok ()

def sampleBackend : Backend :=
  { store := fun key => if key = "k1" then some "v1" else none, failure := none }

def failingBackend : Backend :=
  { store := fun key => if key = "k1" then some "v1" else none,
    failure := some "connection refused" }

def sampleHeaders : String → Option String :=
  fun key => if key = "X-Request-Id" then some "abc-123" else none

def sampleNext : CommonLogger → Scope → Except String Unit :=
  fun _ _ => Except.ok ()

def emptyScope : Scope := { tags := fun _ => none }

end Common

namespace Common

-- Theorems.

/-- C1: each of Error, Errorf, Errorj, Fatal, Fatalf, Fatalj, Panic,
Panicf, Panicj performs exactly one capture-message call to the
error-tracking sink, carrying the rendered message, while Debug, Debugf,
Debugj, Info, Infof, Infoj, Warn, Warnf, Warnj, Print, Printf, Printj
perform zero such calls. -/
theorem sentry_forwarding_error_family (q : CommonLogger) (source rendered : String) :
    capturedMessages (q.Error source rendered) = [rendered]
  ∧ capturedMessages (q.Errorf source rendered) = [rendered]
  ∧ capturedMessages (q.Errorj source rendered) = [rendered]
  ∧ capturedMessages (q.Fatal source rendered) = [rendered]
  ∧ capturedMessages (q.Fatalf source rendered) = [rendered]
  ∧ capturedMessages (q.Fatalj source rendered) = [rendered]
  ∧ capturedMessages (q.Panic source rendered) = [rendered]
  ∧ capturedMessages (q.Panicf source rendered) = [rendered]
  ∧ capturedMessages (q.Panicj source rendered) = [rendered]
  ∧ capturedMessages (q.Debug source rendered) = []
  ∧ capturedMessages (q.Debugf source rendered) = []
  ∧ capturedMessages (q.Debugj source rendered) = []
  ∧ capturedMessages (q.Info source rendered) = []
  ∧ capturedMessages (q.Infof source rendered) = []
  ∧ capturedMessages (q.Infoj source rendered) = []
  ∧ capturedMessages (q.Warn source rendered) = []
  ∧ capturedMessages (q.Warnf source rendered) = []
  ∧ capturedMessages (q.Warnj source rendered) = []
  ∧ capturedMessages (q.Print source rendered) = []
  ∧ capturedMessages (q.Printf source rendered) = []
  ∧ capturedMessages (q.Printj source rendered) = [] :=
  ⟨rfl, rfl, rfl, rfl, rfl, rfl, rfl, rfl, rfl, rfl, rfl,
   rfl, rfl, rfl, rfl, rfl, rfl, rfl, rfl, rfl, rfl⟩

/-- C3 (counterexample): `gommonLog.OFF` lies outside
{DEBUG, INFO, WARN, ERROR}, yet after `SetLevel(OFF)` the read-back
`Level()` is INFO, not the claimed OFF. -/
theorem setLevel_level_counterexample :
    (gommonLog.OFF ≠ gommonLog.DEBUG ∧ gommonLog.OFF ≠ gommonLog.INFO
      ∧ gommonLog.OFF ≠ gommonLog.WARN ∧ gommonLog.OFF ≠ gommonLog.ERROR)
  ∧ (sampleLogger.SetLevel gommonLog.OFF).Level = gommonLog.INFO
  ∧ gommonLog.INFO ≠ gommonLog.OFF :=
  ⟨⟨by decide, by decide, by decide, by decide⟩, rfl, by decide⟩

/-- C3 (amended): after `SetLevel(v)`, `Level()` returns WARN when
v = WARN, and returns INFO (not OFF) when v lies outside
{DEBUG, INFO, WARN, ERROR}, because `toLogrusLevel` defaults unrecognized
levels to logrus Info, which `toEchoLevel` reads back as INFO. -/
theorem setLevel_level_roundtrip (q : CommonLogger) (v : Nat) :
    (v = gommonLog.WARN → (q.SetLevel v).Level = gommonLog.WARN)
  ∧ (v ≠ gommonLog.DEBUG → v ≠ gommonLog.INFO → v ≠ gommonLog.WARN → v ≠ gommonLog.ERROR →
      (q.SetLevel v).Level = gommonLog.INFO) := by
  constructor
  · rintro rfl
    rfl
  · intro h1 h2 h3 h4
    simp [CommonLogger.SetLevel, CommonLogger.Level, toLogrusLevel, toEchoLevel,
      h1, h2, h3, h4, logrus.InfoLevel, logrus.DebugLevel, logrus.WarnLevel,
      logrus.ErrorLevel, gommonLog.INFO]

/-- C3 (witness): the amended round-trip at WARN and at OFF. -/
theorem setLevel_level_roundtrip_witness :
    (sampleLogger.SetLevel gommonLog.WARN).Level = gommonLog.WARN
  ∧ (sampleLogger.SetLevel gommonLog.OFF).Level = gommonLog.INFO :=
  ⟨(setLevel_level_roundtrip sampleLogger gommonLog.WARN).1 rfl,
   (setLevel_level_roundtrip sampleLogger gommonLog.OFF).2
     (by decide) (by decide) (by decide) (by decide)⟩

/-- C8: converting outward (`toEchoLevel`, logrus to gommon), DEBUG,
INFO, WARN, ERROR map to their counterparts and every other logrus level
maps to OFF; converting inward (`toLogrusLevel`, gommon to logrus), the
four map to their counterparts and every other gommon level maps to the
logrus Info level. -/
theorem level_conversion_maps (l v : Nat) :
    toEchoLevel logrus.DebugLevel = gommonLog.DEBUG
  ∧ toEchoLevel logrus.InfoLevel = gommonLog.INFO
  ∧ toEchoLevel logrus.WarnLevel = gommonLog.WARN
  ∧ toEchoLevel logrus.ErrorLevel = gommonLog.ERROR
  ∧ (l ≠ logrus.DebugLevel → l ≠ logrus.InfoLevel → l ≠ logrus.WarnLevel →
      l ≠ logrus.ErrorLevel → toEchoLevel l = gommonLog.OFF)
  ∧ toLogrusLevel gommonLog.DEBUG = logrus.DebugLevel
  ∧ toLogrusLevel gommonLog.INFO = logrus.InfoLevel
  ∧ toLogrusLevel gommonLog.WARN = logrus.WarnLevel
  ∧ toLogrusLevel gommonLog.ERROR = logrus.ErrorLevel
  ∧ (v ≠ gommonLog.DEBUG → v ≠ gommonLog.INFO → v ≠ gommonLog.WARN →
      v ≠ gommonLog.ERROR → toLogrusLevel v = logrus.InfoLevel) := by
  refine ⟨by decide, by decide, by decide, by decide, ?_,
    by decide, by decide, by decide, by decide, ?_⟩
  · intro h1 h2 h3 h4
    simp [toEchoLevel, h1, h2, h3, h4]
  · intro h1 h2 h3 h4
    simp [toLogrusLevel, h1, h2, h3, h4]

/-- C8 (witness): the default branches at logrus Trace and gommon OFF. -/
theorem level_conversion_maps_witness :
    toEchoLevel logrus.TraceLevel = gommonLog.OFF
  ∧ toLogrusLevel gommonLog.OFF = logrus.InfoLevel :=
  ⟨(level_conversion_maps logrus.TraceLevel gommonLog.OFF).2.2.2.2.1
     (by decide) (by decide) (by decide) (by decide),
   (level_conversion_maps logrus.TraceLevel gommonLog.OFF).2.2.2.2.2.2.2.2.2
     (by decide) (by decide) (by decide) (by decide)⟩

/-- C9: `SetOutput` and `SetHeader` are no-ops: for every handle and
argument the handle is returned unchanged, so prefix, requestID, level
and the underlying output are all as before the call. -/
theorem setOutput_setHeader_noop (q : CommonLogger) (w h : String) :
    q.SetOutput w = q
  ∧ q.SetHeader h = q
  ∧ (q.SetOutput w).Prefix = q.Prefix
  ∧ (q.SetOutput w).requestID = q.requestID
  ∧ (q.SetOutput w).Level = q.Level
  ∧ (q.SetOutput w).Output = q.Output
  ∧ (q.SetHeader h).Prefix = q.Prefix
  ∧ (q.SetHeader h).requestID = q.requestID
  ∧ (q.SetHeader h).Level = q.Level
  ∧ (q.SetHeader h).Output = q.Output :=
  ⟨rfl, rfl, rfl, rfl, rfl, rfl, rfl, rfl, rfl, rfl⟩

/-- C10: `SetPrefix(p)` unconditionally overwrites the stored prefix for
every string p (empty or case-insensitively equal included — the
universal quantifier covers them), `Prefix()` afterwards returns exactly
p, and nothing else of the handle changes. -/
theorem setPrefix_unconditional (q : CommonLogger) (p : String) :
    (q.SetPrefix p).Prefix = p
  ∧ q.SetPrefix p = { q with prefix_ := p }
  ∧ (q.SetPrefix p).logger = q.logger
  ∧ (q.SetPrefix p).requestID = q.requestID :=
  ⟨rfl, rfl, rfl, rfl⟩

end Common

namespace Common

/-- C2: `NewCommonLog` is a process-wide singleton.  First call (from the
pristine state): `once.Do` runs, the created instance is stored and
returned, recording the optional prefix if supplied.  Subsequent call
(state holds an instance i): the stored and returned instance is the same
one, its logger and requestID are untouched, and its prefix is
overwritten exactly when a prefix argument is supplied that differs
case-insensitively from the stored one. -/
theorem newCommonLog_singleton :
    (∀ args : List String,
        (NewCommonLog args ⟨false, none⟩).1 = ⟨true, some (mkOnceInstance args)⟩
      ∧ (NewCommonLog args ⟨false, none⟩).2 = mkOnceInstance args
      ∧ (mkOnceInstance args).prefix_ = args.headD "")
  ∧ (∀ (args : List String) (i : CommonLogger),
        (NewCommonLog args ⟨true, some i⟩).1.onceDone = true
      ∧ (NewCommonLog args ⟨true, some i⟩).1.inst = some (NewCommonLog args ⟨true, some i⟩).2
      ∧ (NewCommonLog args ⟨true, some i⟩).2.logger = i.logger
      ∧ (NewCommonLog args ⟨true, some i⟩).2.requestID = i.requestID
      ∧ (args ≠ [] → EqualFold i.prefix_ (args.headD "") = false →
          (NewCommonLog args ⟨true, some i⟩).2.prefix_ = args.headD "")
      ∧ (args = [] → (NewCommonLog args ⟨true, some i⟩).2.prefix_ = i.prefix_)
      ∧ (EqualFold i.prefix_ (args.headD "") = true →
          (NewCommonLog args ⟨true, some i⟩).2.prefix_ = i.prefix_)) := by
  constructor
  · intro args
    refine ⟨?_, ?_, rfl⟩ <;>
      simp [NewCommonLog, mkOnceInstance, EqualFold]
  · intro args i
    cases args with
    | nil =>
      refine ⟨rfl, rfl, ?_, ?_, ?_, ?_, ?_⟩ <;>
        simp [NewCommonLog]
    | cons a as =>
      by_cases he : EqualFold i.prefix_ a = true
      · refine ⟨rfl, rfl, ?_, ?_, ?_, ?_, ?_⟩ <;>
          simp [NewCommonLog, he]
      · have he' : EqualFold i.prefix_ a = false := by
          cases hb : EqualFold i.prefix_ a
          · rfl
          · exact absurd hb he
        refine ⟨rfl, rfl, ?_, ?_, ?_, ?_, ?_⟩ <;>
          simp [NewCommonLog, he']

/-- C4: `GetRedisValue` returns the stored value on success and "" on any
underlying error (absent key or failing backend); `DeleteRedisValue`
returns the removed-key count on success and 0 on any error; in both
operations the backend-failure case is observationally identical to the
absent-key case. -/
theorem redis_get_delete_zero_on_error :
    (∀ (b : Backend) (key v : String), b.failure = none → b.store key = some v →
        GetRedisValue b key = v)
  ∧ (∀ (b : Backend) (key : String), b.failure = none → b.store key = none →
        GetRedisValue b key = "")
  ∧ (∀ (b : Backend) (key e : String), b.failure = some e →
        GetRedisValue b key = "")
  ∧ (∀ (b : Backend) (key : String) (n : Int), b.failure = none →
        clientDel b key = Except.ok n → DeleteRedisValue b key = n)
  ∧ (∀ (b : Backend) (key e : String), b.failure = some e →
        DeleteRedisValue b key = 0)
  ∧ (∀ (b : Backend) (key e : String) (b' : Backend) (key' : String),
        b.failure = some e → b'.failure = none → b'.store key' = none →
        GetRedisValue b key = GetRedisValue b' key'
          ∧ DeleteRedisValue b key = DeleteRedisValue b' key') := by
  refine ⟨?_, ?_, ?_, ?_, ?_, ?_⟩
  · intro b key v hf hs
    simp [GetRedisValue, clientGet, hf, hs]
  · intro b key hf hs
    simp [GetRedisValue, clientGet, hf, hs]
  · intro b key e hf
    simp [GetRedisValue, clientGet, hf]
  · intro b key n hf hd
    simp [DeleteRedisValue, hd]
  · intro b key e hf
    simp [DeleteRedisValue, clientDel, hf]
  · intro b key e b' key' hf hf' hs'
    constructor
    · simp [GetRedisValue, clientGet, hf, hf', hs']
    · simp [DeleteRedisValue, clientDel, hf, hf', hs']

/-- C4 (witness): on a backend holding k1 = v1, get/delete succeed with
the stored value and count 1; on a missing key or a failing backend both
degrade to ""/0, and the two degraded cases coincide. -/
theorem redis_get_delete_zero_on_error_witness :
    GetRedisValue sampleBackend "k1" = "v1"
  ∧ GetRedisValue sampleBackend "missing-key" = ""
  ∧ GetRedisValue failingBackend "k1" = ""
  ∧ DeleteRedisValue sampleBackend "k1" = 1
  ∧ DeleteRedisValue failingBackend "k1" = 0
  ∧ (GetRedisValue failingBackend "k1" = GetRedisValue sampleBackend "missing-key"
      ∧ DeleteRedisValue failingBackend "k1" = DeleteRedisValue sampleBackend "missing-key") :=
  ⟨redis_get_delete_zero_on_error.1 sampleBackend "k1" "v1" rfl rfl,
   redis_get_delete_zero_on_error.2.1 sampleBackend "missing-key" rfl rfl,
   redis_get_delete_zero_on_error.2.2.1 failingBackend "k1" "connection refused" rfl,
   redis_get_delete_zero_on_error.2.2.2.1 sampleBackend "k1" 1 rfl rfl,
   redis_get_delete_zero_on_error.2.2.2.2.1 failingBackend "k1" "connection refused" rfl,
   redis_get_delete_zero_on_error.2.2.2.2.2 failingBackend "k1" "connection refused"
     sampleBackend "missing-key" rfl rfl rfl⟩

/-- C5: `InitClient` is atomic on the handle: when the ping on the built
options fails with e, the call returns exactly the untouched struct
together with e (the client reference stays as it was, nil included);
when the ping succeeds, the created client is stored and no error is
returned. -/
theorem initClient_atomic (r : Redis) (ping : Options → Except String Unit) :
    (∀ e : String, ping (buildRedisOptions r) = Except.error e →
        InitClient r ping = (r, some e))
  ∧ (ping (buildRedisOptions r) = Except.ok () →
        InitClient r ping = ({ r with client := some (buildRedisOptions r) }, none)) := by
  constructor
  · intro e h
    simp [InitClient, h]
  · intro h
    simp [InitClient, h]

/-- C5 (witness): a failing ping leaves the uninitialized sample handle
untouched and surfaces the error verbatim; a succeeding ping stores the
built options as the client. -/
theorem initClient_atomic_witness :
    InitClient sampleRedis pingFail = (sampleRedis, some "connection refused")
  ∧ InitClient sampleRedis pingOk
      = ({ sampleRedis with client := some (buildRedisOptions sampleRedis) }, none)
  ∧ sampleRedis.client = none :=
  ⟨(initClient_atomic sampleRedis pingFail).1 "connection refused" rfl,
   (initClient_atomic sampleRedis pingOk).2 rfl,
   rfl⟩

/-- C6: the options `InitClient` builds copy Host and Password through
unchanged, keep the configured DB (0 stays 0), default PoolSize to 64
exactly when the configured pool size is 0, default ReadTimeout to 10
seconds exactly when the configured read timeout is 0, and on a
successful ping exactly these options are stored as the client. -/
theorem initClient_option_defaults (r : Redis) :
    (buildRedisOptions r).Addr = r.host
  ∧ (buildRedisOptions r).Password = r.password
  ∧ (buildRedisOptions r).DB = r.db
  ∧ (r.poolSize ≠ 0 → (buildRedisOptions r).PoolSize = r.poolSize)
  ∧ (r.poolSize = 0 → (buildRedisOptions r).PoolSize = 64)
  ∧ (r.readTimeout ≠ 0 → (buildRedisOptions r).ReadTimeout = r.readTimeout)
  ∧ (r.readTimeout = 0 → (buildRedisOptions r).ReadTimeout = 10 * time.Second)
  ∧ (∀ ping : Options → Except String Unit, ping (buildRedisOptions r) = Except.ok () →
        (InitClient r ping).1.client = some (buildRedisOptions r)) := by
  refine ⟨?_, ?_, ?_, ?_, ?_, ?_, ?_, ?_⟩
  · by_cases hdb : r.db = 0 <;> by_cases hps : r.poolSize = 0 <;>
      by_cases hrt : r.readTimeout = 0 <;> simp [buildRedisOptions, hdb, hps, hrt]
  · by_cases hdb : r.db = 0 <;> by_cases hps : r.poolSize = 0 <;>
      by_cases hrt : r.readTimeout = 0 <;> simp [buildRedisOptions, hdb, hps, hrt]
  · by_cases hdb : r.db = 0 <;> by_cases hps : r.poolSize = 0 <;>
      by_cases hrt : r.readTimeout = 0 <;> simp [buildRedisOptions, hdb, hps, hrt]
  · intro hps
    by_cases hdb : r.db = 0 <;> by_cases hrt : r.readTimeout = 0 <;>
      simp [buildRedisOptions, hdb, hps, hrt]
  · intro hps
    by_cases hdb : r.db = 0 <;> by_cases hrt : r.readTimeout = 0 <;>
      simp [buildRedisOptions, hdb, hps, hrt]
  · intro hrt
    by_cases hdb : r.db = 0 <;> by_cases hps : r.poolSize = 0 <;>
      simp [buildRedisOptions, hdb, hps, hrt]
  · intro hrt
    by_cases hdb : r.db = 0 <;> by_cases hps : r.poolSize = 0 <;>
      simp [buildRedisOptions, hdb, hps, hrt]
  · intro ping h
    simp [InitClient, h]

/-- C6 (witness): with the all-zero sample config the built options carry
pool size 64, read timeout 10s and DB 0; with the nonzero config the
configured 32 and 5s are kept; a succeeding ping stores the options. -/
theorem initClient_option_defaults_witness :
    (buildRedisOptions sampleRedis).PoolSize = 64
  ∧ (buildRedisOptions sampleRedis).ReadTimeout = 10 * time.Second
  ∧ (buildRedisOptions sampleRedis).DB = 0
  ∧ (buildRedisOptions sampleRedis).Addr = "localhost:6379"
  ∧ (buildRedisOptions sampleRedis).Password = "secret"
  ∧ (buildRedisOptions sampleRedisNonzero).PoolSize = 32
  ∧ (buildRedisOptions sampleRedisNonzero).ReadTimeout = 5 * time.Second
  ∧ (InitClient sampleRedis pingOk).1.client = some (buildRedisOptions sampleRedis) :=
  ⟨(initClient_option_defaults sampleRedis).2.2.2.2.1 rfl,
   (initClient_option_defaults sampleRedis).2.2.2.2.2.2.1 rfl,
   (initClient_option_defaults sampleRedis).2.2.1,
   (initClient_option_defaults sampleRedis).1,
   (initClient_option_defaults sampleRedis).2.1,
   (initClient_option_defaults sampleRedisNonzero).2.2.2.1 (by decide),
   (initClient_option_defaults sampleRedisNonzero).2.2.2.2.2.1 (by decide),
   (initClient_option_defaults sampleRedis).2.2.2.2.2.2.2 pingOk rfl⟩

/-- C7: on a request whose `X-Request-Id` header is present with value v,
the middleware stores v in the shared logger's requestID and tags the
sentry scope with x-request-id = v, both observed by the wrapped handler
(`next` receives the updated logger and scope), then invokes `next`
unconditionally and returns its result unchanged. -/
theorem middleware_request_id (q : CommonLogger) (scope : Scope)
    (headers : String → Option String) (next : CommonLogger → Scope → Except String Unit)
    (v : String) (h : headers HeaderXRequestID = some v) :
    (MiddlewareLoggerRequestID q scope headers next).loggerAfter.requestID = v
  ∧ (MiddlewareLoggerRequestID q scope headers next).loggerAfter = { q with requestID := v }
  ∧ (MiddlewareLoggerRequestID q scope headers next).scopeAfter.tags "x-request-id" = some v
  ∧ (MiddlewareLoggerRequestID q scope headers next).result =
      next (MiddlewareLoggerRequestID q scope headers next).loggerAfter
        (MiddlewareLoggerRequestID q scope headers next).scopeAfter := by
  refine ⟨?_, ?_, ?_, rfl⟩ <;>
    simp [MiddlewareLoggerRequestID, headerGet, h, Scope.SetTag]

/-- C7 (witness): with header X-Request-Id: abc-123, the logger's
requestID becomes abc-123 and the scope tag x-request-id is abc-123. -/
theorem middleware_request_id_witness :
    (MiddlewareLoggerRequestID sampleLogger emptyScope sampleHeaders sampleNext).loggerAfter.requestID
        = "abc-123"
  ∧ (MiddlewareLoggerRequestID sampleLogger emptyScope sampleHeaders sampleNext).scopeAfter.tags
        "x-request-id" = some "abc-123" :=
  ⟨(middleware_request_id sampleLogger emptyScope sampleHeaders sampleNext "abc-123" rfl).1,
   (middleware_request_id sampleLogger emptyScope sampleHeaders sampleNext "abc-123" rfl).2.2.1⟩

end Common

namespace Common

/-- C2 (witness): first call from the pristine state records prefix Svc;
a later call with Other overwrites, a later call with no argument keeps
Svc, and a later call with the case-insensitively equal svc keeps the
stored spelling Svc. -/
theorem newCommonLog_singleton_witness :
    (NewCommonLog ["Svc"] ⟨false, none⟩).2 = mkOnceInstance ["Svc"]
  ∧ (mkOnceInstance ["Svc"]).prefix_ = "Svc"
  ∧ (NewCommonLog ["Other"] ⟨true, some (mkOnceInstance ["Svc"])⟩).2.prefix_ = "Other"
  ∧ (NewCommonLog [] ⟨true, some (mkOnceInstance ["Svc"])⟩).2.prefix_ = "Svc"
  ∧ (NewCommonLog ["svc"] ⟨true, some (mkOnceInstance ["Svc"])⟩).2.prefix_ = "Svc" :=
  ⟨(newCommonLog_singleton.1 ["Svc"]).2.1,
   (newCommonLog_singleton.1 ["Svc"]).2.2,
   (newCommonLog_singleton.2 ["Other"] (mkOnceInstance ["Svc"])).2.2.2.2.1
     (by decide) (by decide),
   (newCommonLog_singleton.2 [] (mkOnceInstance ["Svc"])).2.2.2.2.2.1 rfl,
   (newCommonLog_singleton.2 ["svc"] (mkOnceInstance ["Svc"])).2.2.2.2.2.2 (by decide)⟩

end Common
